import Mathlib

/-!
Shallow embedding of the kernel-connection core of `src/lib/kernel.py`
(Helium, a Sublime Text plugin speaking the Jupyter messaging protocol).

Pure helpers (`remove_ansi_escape`, `fix_whitespace_for_phantom`) are
translated as Lean functions on strings; the receiver loops become explicit
step functions over traces; rendering side effects are reified as lists of
`RenderEvent` values recording each call the dispatcher makes on the
rendering collaborator (`_write_text_to_view`, `_write_phantom`,
`_write_inline_html_phantom`, `_write_inline_image_phantom`); the reply-queue
registry (`shell_msg_queues`, a Python `defaultdict(Queue)`) becomes an
association list from message id to queue contents.
-/

namespace Helium

/-- `MsgType` enum of `kernel.py`. -/
inductive MsgType where
  | EXECUTE_INPUT
  | EXECUTE_REQUEST
  | EXECUTE_RESULT
  | EXECUTE_REPLY
  | COMPLETE_REQUEST
  | COMPLETE_REPLY
  | DISPLAY_DATA
  | INSPECT_REQUEST
  | INSPECT_REPLY
  | INPUT_REQUEST
  | INPUT_REPLY
  | ERROR
  | STREAM
  | STATUS
  | UNKNOWN
  deriving DecidableEq, Repr

/-- `ExecState` enum of `kernel.py` (`BUSY`, `IDLE`, `STARTING`, plus the
custom `UNKNOWN`). -/
inductive ExecState where
  | BUSY
  | IDLE
  | STARTING
  | UNKNOWN
  deriving DecidableEq, Repr

/-- `MsgType[name]` lookup by enum-member name; `none` models the Python
`KeyError`. -/
def msgTypeFromName (s : String) : Option MsgType :=
  if s = "EXECUTE_INPUT" then some .EXECUTE_INPUT
  else if s = "EXECUTE_REQUEST" then some .EXECUTE_REQUEST
  else if s = "EXECUTE_RESULT" then some .EXECUTE_RESULT
  else if s = "EXECUTE_REPLY" then some .EXECUTE_REPLY
  else if s = "COMPLETE_REQUEST" then some .COMPLETE_REQUEST
  else if s = "COMPLETE_REPLY" then some .COMPLETE_REPLY
  else if s = "DISPLAY_DATA" then some .DISPLAY_DATA
  else if s = "INSPECT_REQUEST" then some .INSPECT_REQUEST
  else if s = "INSPECT_REPLY" then some .INSPECT_REPLY
  else if s = "INPUT_REQUEST" then some .INPUT_REQUEST
  else if s = "INPUT_REPLY" then some .INPUT_REPLY
  else if s = "ERROR" then some .ERROR
  else if s = "STREAM" then some .STREAM
  else if s = "STATUS" then some .STATUS
  else if s = "UNKNOWN" then some .UNKNOWN
  else none

/-- `ExecState[name]` lookup by enum-member name; `none` models the Python
`KeyError`. -/
def execStateFromName (s : String) : Option ExecState :=
  if s = "BUSY" then some .BUSY
  else if s = "IDLE" then some .IDLE
  else if s = "STARTING" then some .STARTING
  else if s = "UNKNOWN" then some .UNKNOWN
  else none

/-- Python `str.upper()` on one character, for the ASCII letters occurring
in message-type and execution-state strings. -/
def pyUpperChar (c : Char) : Char :=
  if 'a' ≤ c ∧ c ≤ 'z' then Char.ofNat (c.toNat - 32) else c

/-- Python `str.upper()` (restricted to ASCII case mapping, which covers
every string the source upper-cases: protocol message-type and
execution-state names). -/
def pyUpper (s : String) : String := String.mk (s.data.map pyUpperChar)

/-- The escape character `\x1b` of `ANSI_ESCAPE_PATTERN = re.compile(r"\x1b[^m]*m")`. -/
def escChar : Char := '\x1b'

/-- Skip characters up to and including the first `'m'`; `none` when the list
contains no `'m'`.  This is the span consumed by one match of
`ANSI_ESCAPE_PATTERN` after its leading escape character: `[^m]*` (greedy)
stops right before the first `'m'`, which the final `m` then consumes. -/
def dropThroughM : List Char → Option (List Char)
  | [] => none
  | c :: cs => if c = 'm' then some cs else dropThroughM cs

/-- `re.sub(ANSI_ESCAPE_PATTERN, "", ·)` on the character list of the input:
scanning left to right, a match can start only at an escape character and
spans through the first `'m'` after it; an escape character with no `'m'`
anywhere after it matches nothing (and then no later position can match
either, since no `'m'` remains in the suffix). -/
def removeAnsiEscape : List Char → List Char
  | [] => []
  | c :: cs =>
    if c = escChar then
      match h : dropThroughM cs with
      | some rest => removeAnsiEscape rest
      | none => c :: cs
    else
      c :: removeAnsiEscape cs
termination_by l => l.length
decreasing_by
  · have key : ∀ (l r : List Char), dropThroughM l = some r → r.length < l.length := by
      intro l
      induction l with
      | nil => intro r hr; simp [dropThroughM] at hr
      | cons a as ih =>
        intro r hr
        by_cases ha : a = 'm'
        · simp [dropThroughM, ha] at hr
          subst hr; simp
        · simp [dropThroughM, ha] at hr
          exact Nat.lt_succ_of_lt (ih r hr)
    exact Nat.lt_succ_of_lt (key cs rest h)
  · simp

/-- `remove_ansi_escape` of `kernel.py`, on `String`. -/
def remove_ansi_escape (text : String) : String :=
  String.mk (removeAnsiEscape text.data)

/-- A character list contains no match of `ANSI_ESCAPE_PATTERN`: every escape
character in it has no `'m'` anywhere after it. -/
def CleanOfAnsi : List Char → Prop
  | [] => True
  | c :: cs => (c = escChar → 'm' ∉ cs) ∧ CleanOfAnsi cs

/-! ### String helpers for rendering (`fix_whitespace_for_phantom`, phantoms) -/

/-- Python `str.splitlines` on a character list, restricted to `'\n'` line
breaks (the only break character occurring in the strings the plugin
formats): every `'\n'` terminates a line, a final segment without a
trailing `'\n'` is a line of its own, and the empty string has no lines. -/
def splitlinesList : List Char → List (List Char)
  | [] => []
  | c :: cs =>
    if c = '\n' then [] :: splitlinesList cs
    else
      match splitlinesList cs with
      | [] => [[c]]
      | l :: ls => (c :: l) :: ls

/-- Python `str.splitlines` (for `'\n'` breaks), on `String`. -/
def splitlines (s : String) : List String :=
  (splitlinesList s.data).map String.mk

/-- `text.replace(" ", "&nbsp;")`: the pattern is a single character, so the
replacement is character-wise. -/
def replaceSpaces (s : String) : String :=
  String.mk (s.data.flatMap fun c => if c = ' ' then "&nbsp;".data else [c])

/-- `fix_whitespace_for_phantom` of `kernel.py`: replace spaces by `&nbsp;`,
then join the lines with `<br>`. -/
def fix_whitespace_for_phantom (text : String) : String :=
  let text := replaceSpaces text
  String.intercalate "<br>" (splitlines text)

/-- A Python whitespace character, as stripped by `str.strip()` (the ASCII
ones; the base64 payloads stripped in the source contain at most these). -/
def isPySpace (c : Char) : Bool :=
  c = ' ' ∨ c = '\t' ∨ c = '\n' ∨ c = '\r' ∨ c = '\x0b' ∨ c = '\x0c'

/-- Python `str.strip()`: drop whitespace from both ends. -/
def pyStrip (s : String) : String :=
  String.mk (((s.data.dropWhile isPySpace).reverse.dropWhile isPySpace).reverse)

/-- `STREAM_PHANTOM.format(name=..., content=...)` for
`STREAM_PHANTOM = "<div class={name}>{content}</div>"`. -/
def streamPhantomFormat (name content : String) : String :=
  "<div class=" ++ name ++ ">" ++ content ++ "</div>"

/-! ### Messages and the reply-queue registry -/

/-- The mime bundle consulted by `_write_mime_data_to_view` and related
handlers.  The source only ever indexes the `content["data"]` dict at the
keys `"text/plain"`, `"text/html"` and `"image/png"`; a field is `none` when
the corresponding key is absent. -/
structure MimeData where
  text_plain : Option String
  text_html : Option String
  image_png : Option String
  deriving DecidableEq, Repr

/-- The content dict fields the receiver loops read.  `none` models an
absent key, whose access raises a `KeyError` at the dispatch site. -/
structure MsgContent where
  execution_state : Option String := none
  execution_count : Option Int := none
  code : Option String := none
  ename : Option String := none
  evalue : Option String := none
  traceback : Option (List String) := none
  data : Option MimeData := none
  name : Option String := none
  text : Option String := none
  prompt : Option String := none
  password : Option Bool := none
  deriving DecidableEq, Repr

/-- A received message: top-level `msg_type` string, the parent header's
`msg_id` (`none` when absent) and the content dict. -/
structure Msg where
  msg_type : String
  parent_id : Option String := none
  content : MsgContent := {}
  deriving DecidableEq, Repr

/-- `shell_msg_queues`: an association list from message id to the contents
of that id's `Queue` (in FIFO order).  The Python value is a
`defaultdict(Queue)`, so a plain `shell_msg_queues[id]` lookup creates an
empty queue when the key is missing. -/
abbrev Registry := List (String × List Msg)

/-- Plain lookup of the queue registered under `id` (no default creation). -/
def lookupQueue : Registry → String → Option (List Msg)
  | [], _ => none
  | (k, q) :: rest, id => if k = id then some q else lookupQueue rest id

/-- Replace the queue stored under the first occurrence of `id`. -/
def updateQueue : Registry → String → List Msg → Registry
  | [], _, _ => []
  | (k, q) :: rest, id, q' =>
    if k = id then (k, q') :: rest else (k, q) :: updateQueue rest id q'

/-- `shell_msg_queues.pop(id, None)`: drop the entry for `id` if present. -/
def popQueue : Registry → String → Registry
  | [], _ => []
  | (k, q) :: rest, id => if k = id then rest else (k, q) :: popQueue rest id

/-- `shell_msg_queues[id]` on the `defaultdict(Queue)`: return the registry
(with a fresh empty queue appended when `id` was missing) together with the
queue contents the lookup yields. -/
def defaultdictGetQueue (reg : Registry) (id : String) :
    Registry × List Msg :=
  match lookupQueue reg id with
  | some q => (reg, q)
  | none => (reg ++ [(id, [])], [])

/-- One delivery step of `ShellMessageReceiver.run` for a received message:
`queue = shell_msg_queues[msg["parent_header"]["msg_id"]]` (a defaultdict
lookup, under the registry lock) followed by `queue.put(msg)`.  A missing
`parent_header.msg_id` raises a `KeyError` that the loop's generic
`except Exception` arm catches, leaving the registry unchanged. -/
def shellDeliver (reg : Registry) (msg : Msg) : Registry :=
  match msg.parent_id with
  | none => reg
  | some pid =>
    let (reg1, q) := defaultdictGetQueue reg pid
    updateQueue reg1 pid (q ++ [msg])

/-! ### Rendering events

The dispatcher's side effects are reified as the sequence of calls it makes
on the rendering-collaborator methods of `KernelConnection`:
`appendText` records a `_write_text_to_view` call, `blockHtml` a
`_write_phantom` call, `inlineHtml` a `_write_inline_html_phantom` call, and
`inlineImage` a `_write_inline_image_phantom` call (the `region`/`view`
arguments of the inline calls are tracked by the callers below). -/
inductive RenderEvent where
  | appendText (text : String)
  | blockHtml (html : String)
  | inlineHtml (html : String)
  | inlineImage (data : String)
  deriving DecidableEq, Repr

/-- `KernelConnection._handle_error`.  In the source, the statement

```
lines = "\nError[{execution_count}]: {ename}, {evalue}."
"\nTraceback:\n{traceback}".format(...)
```

is two separate statements: the first assigns the *unformatted* template
string (the intended implicit string concatenation is broken by the
statement boundary, so `.format` is called on the second literal alone and
its result is discarded).  Hence `lines` is the literal
`"\nError[{execution_count}]: {ename}, {evalue}."` (the `errorTemplate`
below) — the arguments are never substituted and the traceback never
appears.  The inline phantom is built only when `region is not None`
(`hasRegion`). -/
def errorTemplate : String :=
  "\nError[\x7bexecution_count\x7d]: \x7bename\x7d, \x7bevalue\x7d."

/-- `KernelConnection._handle_error` (see `errorTemplate` for the statement
boundary that leaves `lines` unformatted). -/
def handle_error (execution_count : Int) (ename : String) (evalue : String)
    (traceback : List String) (hasRegion : Bool) : List RenderEvent :=
  let lines := errorTemplate
  let lines := remove_ansi_escape lines
  RenderEvent.appendText lines ::
    (if hasRegion then
      [RenderEvent.inlineHtml
        (streamPhantomFormat "error" (fix_whitespace_for_phantom lines))]
    else [])

/-- `KernelConnection._handle_stream`: always append
`"\n(<name>):\n<text>"`; build the inline phantom when the formatted
`phantom_html` string is truthy (non-empty) and a region exists. -/
def handle_stream (name : String) (text : String) (hasRegion : Bool) :
    List RenderEvent :=
  let lines := "\n(" ++ name ++ "):\n" ++ text
  let phantom_html := streamPhantomFormat name (fix_whitespace_for_phantom text)
  RenderEvent.appendText lines ::
    (if phantom_html ≠ "" ∧ hasRegion then
      [RenderEvent.inlineHtml phantom_html]
    else [])

/-- The html body built in the `image/png` branch of
`_write_mime_data_to_view` (after `.strip()` of the payload). -/
def pngPhantomBody (data : String) : String :=
  "<body style=\"background-color:white\">"
    ++ "<img alt=\"Out\" src=\"data:image/png;base64," ++ data ++ "\" />"
    ++ "</body>"

/-- `KernelConnection._write_mime_data_to_view`: `text/plain` is preferred
for the main text rendering (with an inline phantom of the same content);
only when it is absent does the `text/html` fallback branch fire (block
phantom plus inline phantom); independently, an `image/png` payload
produces a block phantom embedding the base64 image and an inline image
phantom. -/
def write_mime_data_to_view (mime_data : MimeData) : List RenderEvent :=
  (match mime_data.text_plain with
   | some content =>
     [RenderEvent.appendText ("\n(display data): " ++ content),
      RenderEvent.inlineHtml (fix_whitespace_for_phantom content)]
   | none =>
     match mime_data.text_html with
     | some content =>
       [RenderEvent.blockHtml content, RenderEvent.inlineHtml content]
     | none => [])
  ++
  (match mime_data.image_png with
   | some raw =>
     let data := pyStrip raw
     [RenderEvent.blockHtml (pngPhantomBody data),
      RenderEvent.inlineImage data]
   | none => [])

/-! ### The notification dispatcher's state effect -/

/-- A Python exception raised while handling one message (a `KeyError` from
a missing dict or enum key). -/
inductive PyError where
  | keyError
  deriving DecidableEq, Repr

/-- The effect of one `IOPubMessageReceiver.run` iteration body on
`_execution_state`, before the loop's `except Exception` arm.  The
`msg_type` lookup has its own local `try/except KeyError` mapping unknown
names to `MsgType.UNKNOWN`; the status arm's
`ExecState[content["execution_state"].upper()]` has none, so a missing
`execution_state` key or an unknown state name raises.  No arm other than
the status arm assigns `_execution_state` (the rest only render output). -/
def iopubHandle (st : ExecState) (msg : Msg) : Except PyError ExecState :=
  let msg_type := (msgTypeFromName (pyUpper msg.msg_type)).getD MsgType.UNKNOWN
  if msg_type = MsgType.STATUS then
    match msg.content.execution_state with
    | none => Except.error PyError.keyError
    | some s =>
      match execStateFromName (pyUpper s) with
      | none => Except.error PyError.keyError
      | some st' => Except.ok st'
  else
    Except.ok st

/-- One `IOPubMessageReceiver.run` iteration as seen from
`_execution_state`: an exception raised in the body is caught by the
iteration's `except Exception` arm (logged), leaving the state unchanged. -/
def iopubStep (st : ExecState) (msg : Msg) : ExecState :=
  match iopubHandle st msg with
  | Except.ok st' => st'
  | Except.error _ => st

/-- A convenience constructor: an IOPub `status` message carrying the given
`execution_state` string. -/
def statusMsg (s : String) : Msg :=
  { msg_type := "status", content := { execution_state := some s } }

/-! ### The stdin receiver -/

/-- A dynamically typed Python value, as far as the stdin receiver's
`msg_type == MsgType.INPUT_REQUEST` comparison is concerned. -/
inductive PyVal where
  | str (s : String)
  | enum (t : MsgType)
  deriving DecidableEq, Repr

/-- Python `==` on such values: values of different types compare unequal
(`str` defines no equality with `MsgType`, and `Enum` members only equal
themselves). -/
def pyEq : PyVal → PyVal → Bool
  | PyVal.str a, PyVal.str b => a = b
  | PyVal.enum a, PyVal.enum b => a = b
  | _, _ => false

/-- A call on one of the two input-prompt collaborators
(`show_password_input` / `show_input_panel`), each wired with an answer
callback and an interrupt action. -/
inductive PromptCall where
  | password (prompt : String)
  | plain (prompt : String)
  deriving DecidableEq, Repr

/-- `StdInMessageReceiver._handle_input_request`: a truthy `password` flag
selects the password-style collaborator, otherwise the plain input panel. -/
def handle_input_request (prompt : String) (password : Bool) :
    List PromptCall :=
  if password then [PromptCall.password prompt] else [PromptCall.plain prompt]

/-- The prompt-collaborator calls made by one `StdInMessageReceiver.run`
iteration for a received message: `msg_type = msg["msg_type"]` is the
message-type *string*, which the source compares against the enum member
`MsgType.INPUT_REQUEST` with `==`; a missing `prompt` or `password` key
raises a `KeyError` caught by the iteration's `except Exception` arm. -/
def stdinStep (msg : Msg) : List PromptCall :=
  let msg_type := msg.msg_type
  if pyEq (PyVal.str msg_type) (PyVal.enum MsgType.INPUT_REQUEST) then
    match msg.content.prompt, msg.content.password with
    | some p, some pw => handle_input_request p pw
    | _, _ => []
  else []

/-! ### The receiver loops -/

/-- What one `get_shell_msg` / `get_iopub_msg` / `get_stdin_msg` poll
produces: a message, the `Empty` exception (`except Empty: pass`), or any
other exception (`except Exception: log`). -/
inductive PollResult where
  | msg (m : Msg)
  | empty
  | chanError
  deriving DecidableEq, Repr

/-- The shape shared by the three `MessageReceiver.run` loops: each
iteration first checks the `exit` event at the poll boundary
(`while not self.exit.is_set()`), terminating when it is set; otherwise the
poll result is processed by the (total, exception-catching) step function
and the loop continues.  The trace lists, for each iteration, the value of
the stop signal at the poll boundary and what the poll produced.  The
returned `Bool` records whether the loop terminated within the trace. -/
def runLoop {σ : Type} (step : σ → Msg → σ) (st : σ) :
    List (Bool × PollResult) → σ × Bool
  | [] => (st, false)
  | (stop, r) :: rest =>
    if stop then (st, true)
    else
      runLoop step
        (match r with
         | PollResult.msg m => step st m
         | PollResult.empty => st
         | PollResult.chanError => st)
        rest

/-- `ShellMessageReceiver.run` over a trace. -/
def runShell (reg : Registry) (tr : List (Bool × PollResult)) :
    Registry × Bool :=
  runLoop shellDeliver reg tr

/-- `IOPubMessageReceiver.run` over a trace, tracking `_execution_state`. -/
def runIOPub (st : ExecState) (tr : List (Bool × PollResult)) :
    ExecState × Bool :=
  runLoop iopubStep st tr

/-- `StdInMessageReceiver.run` over a trace, accumulating the
prompt-collaborator calls it makes. -/
def runStdIn (calls : List PromptCall) (tr : List (Bool × PollResult)) :
    List PromptCall × Bool :=
  runLoop (fun cs m => cs ++ stdinStep m) calls tr

/-! ### The request/reply client (`get_complete`, `get_inspection`) -/

/-- One entry of `content["metadata"]["_jupyter_types_experimental"]`: its
`"text"` and `"type"` fields (the latter may be Python `None`). -/
structure TypeHint where
  text : String
  type : Option String
  deriving DecidableEq, Repr

/-- The fields of a `complete_reply` content dict that `get_complete`
reads.  `types_experimental = some hints` models
`"_jupyter_types_experimental" in recv_content.get("metadata", {})`;
`matchesList` is the `content["matches"]` list (`matches` is reserved
syntax in Lean); `matchesList = none` models a missing `"matches"` key
(whose access raises a `KeyError` that the surrounding `except Exception`
arm catches). -/
structure CompleteReplyContent where
  types_experimental : Option (List TypeHint) := none
  matchesList : Option (List String) := none
  deriving DecidableEq, Repr

/-- What `queue.get(timeout=timeout)` produces for a shell request: the
reply within the timeout, or the `Empty` exception. -/
inductive ShellOutcome (α : Type) where
  | reply (content : α)
  | timeout
  deriving DecidableEq, Repr

/-- `"<no type info>" if match["type"] is None else match["type"]`. -/
def typeLabel : Option String → String
  | none => "<no type info>"
  | some t => t

/-- `KernelConnection.get_complete`, with the transport and the concurrent
reply delivery abstracted: `msg_id` is the id returned by
`client.complete(code, cursor_pos)` and `outcome` is what the subsequent
`queue.get(timeout=timeout)` yields.  Returns the completion list, whether
a complete request was sent to the client at all, and the final registry.
The source short-circuits when `self.execution_state is not ExecState.IDLE`;
otherwise it registers the inbox by a defaultdict lookup, maps the reply
(experimental type hints when present, else the plain matches; a timeout or
any exception yields `[]`), and unconditionally pops the registry entry in
the `finally` block. -/
def get_complete (execution_state : ExecState) (reg : Registry)
    (msg_id : String) (outcome : ShellOutcome CompleteReplyContent) :
    List (String × String) × Bool × Registry :=
  if execution_state ≠ ExecState.IDLE then ([], false, reg)
  else
    let (reg1, _queue) := defaultdictGetQueue reg msg_id
    let result : List (String × String) :=
      match outcome with
      | ShellOutcome.timeout => []
      | ShellOutcome.reply content =>
        match content.types_experimental with
        | some hints =>
          hints.map fun hint =>
            (hint.text ++ "\t" ++ typeLabel hint.type, hint.text)
        | none =>
          match content.matchesList with
          | some ms => ms.map fun m => (m ++ "\tHelium", m)
          | none => []
    (result, true, popQueue reg1 msg_id)

/-- The `"text/plain"` field of the reply's `content["data"]` dict, as read
by `_handle_inspect_reply` (`none` models a missing key). -/
structure InspectData where
  text_plain : Option String
  deriving DecidableEq, Repr

/-- `KernelConnection._handle_inspect_reply`: append the ANSI-stripped
`reply["text/plain"]` to the inspect panel and show it; a `KeyError`
(missing key) is caught and logged inside the method, so no panel text is
shown.  The result is the text appended to the panel, if any. -/
def handle_inspect_reply (reply : InspectData) : Option String :=
  match reply.text_plain with
  | some t => some (remove_ansi_escape t)
  | none => none

/-- What `queue.get(timeout=timeout)` yields for an inspect request.  In
the `reply` case, `data = none` models a reply whose content lacks the
`"data"` key: `recv_msg["content"]["data"]` then raises a `KeyError` that
`get_inspection` does not catch (it only catches `Empty`). -/
inductive InspectOutcome where
  | reply (data : Option InspectData)
  | timeout
  deriving DecidableEq, Repr

/-- `KernelConnection.get_inspection`, with the transport and reply delivery
abstracted as in `get_complete` (note: no `ExecState.IDLE` short-circuit
here).  The first component is the call's outcome — `Except.ok` with the
panel text shown (if any), or the uncaught exception — and the second the
final registry: the `finally` block pops the entry in every case, including
the raising one. -/
def get_inspection (reg : Registry) (msg_id : String)
    (outcome : InspectOutcome) :
    Except PyError (Option String) × Registry :=
  let (reg1, _queue) := defaultdictGetQueue reg msg_id
  let result : Except PyError (Option String) :=
    match outcome with
    | InspectOutcome.timeout => Except.ok none
    | InspectOutcome.reply none => Except.error PyError.keyError
    | InspectOutcome.reply (some data) => Except.ok (handle_inspect_reply data)
  (result, popQueue reg1 msg_id)

/-! ### Concrete inputs and event classifiers used by the statements -/

/-- Is the event a main-text rendering call (`_write_text_to_view`)? -/
def isMainTextCall : RenderEvent → Bool
  | RenderEvent.appendText _ => true
  | _ => false

/-- Is the event an inline image rendering call
(`_write_inline_image_phantom`)? -/
def isImageCall : RenderEvent → Bool
  | RenderEvent.inlineImage _ => true
  | _ => false

/-- Is the event a block-level html rendering call (`_write_phantom`)? -/
def isBlockHtmlCall : RenderEvent → Bool
  | RenderEvent.blockHtml _ => true
  | _ => false

/-- A shell reply whose `parent_header.msg_id` is `"b"`. -/
def replyToB : Msg where
  msg_type := "complete_reply"
  parent_id := some "b"
  content := {}

/-- A stdin `input_request` message carrying a prompt and
`password = False`. -/
def inputRequestMsg : Msg where
  msg_type := "input_request"
  parent_id := none
  content := { prompt := some "Enter: ", password := some false }

/-- A mime bundle carrying `text/plain`, `text/html` and `image/png`
payloads at once. -/
def mimeBoth : MimeData where
  text_plain := some "x y"
  text_html := some "<b>x</b>"
  image_png := some " QUJD "

/-! ## Lemmas about the ANSI-escape stripper -/

theorem dropThroughM_eq_none {cs : List Char} :
    dropThroughM cs = none ↔ 'm' ∉ cs := by
  induction cs with
  | nil => simp [dropThroughM]
  | cons c cs ih =>
    by_cases hc : c = 'm'
    · simp [dropThroughM, hc]
    · have hc' : ¬ ('m' = c) := fun heq => hc heq.symm
      simp [dropThroughM, hc, ih, hc']

theorem cleanOfAnsi_of_not_mem_m {l : List Char} (h : 'm' ∉ l) :
    CleanOfAnsi l := by
  induction l with
  | nil => trivial
  | cons c cs ih =>
    have hcs : 'm' ∉ cs := fun hm => h (List.mem_cons_of_mem _ hm)
    exact ⟨fun _ => hcs, ih hcs⟩

theorem cleanOfAnsi_of_not_mem_esc {l : List Char} (h : escChar ∉ l) :
    CleanOfAnsi l := by
  induction l with
  | nil => trivial
  | cons c cs ih =>
    have hc : c ≠ escChar := fun heq => h (heq ▸ List.mem_cons_self c cs)
    have hcs : escChar ∉ cs := fun hm => h (List.mem_cons_of_mem _ hm)
    exact ⟨fun heq => absurd heq hc, ih hcs⟩

theorem removeAnsiEscape_nil : removeAnsiEscape [] = [] := by
  rw [removeAnsiEscape.eq_def]

theorem removeAnsiEscape_cons_esc_some {cs rest : List Char}
    (h : dropThroughM cs = some rest) :
    removeAnsiEscape (escChar :: cs) = removeAnsiEscape rest := by
  rw [removeAnsiEscape.eq_def]
  simp only [if_pos rfl, if_true]
  split
  · next r hr => rw [h] at hr; cases hr; rfl
  · next hr => rw [h] at hr; cases hr

theorem removeAnsiEscape_cons_esc_none {cs : List Char}
    (h : dropThroughM cs = none) :
    removeAnsiEscape (escChar :: cs) = escChar :: cs := by
  rw [removeAnsiEscape.eq_def]
  simp only [if_pos rfl, if_true]
  split
  · next r hr => rw [h] at hr; cases hr
  · rfl

theorem removeAnsiEscape_cons_ne {c : Char} {cs : List Char}
    (h : ¬ c = escChar) :
    removeAnsiEscape (c :: cs) = c :: removeAnsiEscape cs := by
  rw [removeAnsiEscape.eq_def]
  simp only [if_neg h]

theorem removeAnsiEscape_of_clean {l : List Char} (h : CleanOfAnsi l) :
    removeAnsiEscape l = l := by
  induction l with
  | nil => exact removeAnsiEscape_nil
  | cons c cs ih =>
    obtain ⟨h1, h2⟩ := h
    by_cases hc : c = escChar
    · subst hc
      have hm : 'm' ∉ cs := h1 rfl
      exact removeAnsiEscape_cons_esc_none (dropThroughM_eq_none.mpr hm)
    · rw [removeAnsiEscape_cons_ne hc, ih h2]

theorem cleanOfAnsi_removeAnsiEscape (l : List Char) :
    CleanOfAnsi (removeAnsiEscape l) := by
  induction l using removeAnsiEscape.induct with
  | case1 => rw [removeAnsiEscape_nil]; trivial
  | case2 cs rest h ih =>
    rw [removeAnsiEscape_cons_esc_some h]
    exact ih
  | case3 cs h =>
    rw [removeAnsiEscape_cons_esc_none h]
    have hm : 'm' ∉ cs := dropThroughM_eq_none.mp h
    exact ⟨fun _ => hm, cleanOfAnsi_of_not_mem_m hm⟩
  | case4 c cs hc ih =>
    rw [removeAnsiEscape_cons_ne hc]
    exact ⟨fun heq => absurd heq hc, ih⟩

theorem removeAnsiEscape_idem (l : List Char) :
    removeAnsiEscape (removeAnsiEscape l) = removeAnsiEscape l :=
  removeAnsiEscape_of_clean (cleanOfAnsi_removeAnsiEscape l)

theorem remove_ansi_escape_of_clean {s : String} (h : CleanOfAnsi s.data) :
    remove_ansi_escape s = s := by
  obtain ⟨d⟩ := s
  unfold remove_ansi_escape
  rw [removeAnsiEscape_of_clean h]

/-! ## Lemmas about the reply-queue registry -/

theorem lookupQueue_append (l1 l2 : Registry) (k : String) :
    lookupQueue (l1 ++ l2) k =
      match lookupQueue l1 k with
      | some q => some q
      | none => lookupQueue l2 k := by
  induction l1 with
  | nil => simp [lookupQueue]
  | cons e rest ih =>
    obtain ⟨k', q⟩ := e
    by_cases hk : k' = k
    · simp [lookupQueue, hk]
    · simp [lookupQueue, hk, ih]

theorem lookupQueue_updateQueue (reg : Registry) (id : String)
    (v : List Msg) (k : String) :
    lookupQueue (updateQueue reg id v) k =
      if k = id then (lookupQueue reg id).map (fun _ => v)
      else lookupQueue reg k := by
  induction reg with
  | nil => simp [lookupQueue, updateQueue]
  | cons e rest ih =>
    obtain ⟨k', q⟩ := e
    by_cases hk' : k' = id
    · subst hk'
      by_cases hk : k = k'
      · simp [lookupQueue, updateQueue, hk]
      · have hk2 : ¬ (k' = k) := fun heq => hk heq.symm
        simp [lookupQueue, updateQueue, hk, hk2]
    · by_cases hk : k' = k
      · subst hk
        simp [lookupQueue, updateQueue, hk']
      · simp [lookupQueue, updateQueue, hk', hk, ih]

theorem popQueue_append_fresh (reg : Registry) (id : String) (q : List Msg)
    (h : lookupQueue reg id = none) :
    popQueue (reg ++ [(id, q)]) id = reg := by
  induction reg with
  | nil => simp [popQueue]
  | cons e rest ih =>
    obtain ⟨k', q'⟩ := e
    by_cases hk : k' = id
    · simp [lookupQueue, hk] at h
    · simp only [lookupQueue, hk, if_false, if_neg hk] at h
      simp [popQueue, hk, ih h]

/-! ## Lemma about the loop skeleton -/

theorem runLoop_exit {σ : Type} (step : σ → Msg → σ) (st : σ)
    (tr : List (Bool × PollResult)) :
    (runLoop step st tr).2 = tr.any (fun p => p.1) := by
  induction tr generalizing st with
  | nil => rfl
  | cons p rest ih =>
    obtain ⟨stop, r⟩ := p
    cases stop
    · simp [runLoop, ih]
    · simp [runLoop]

/-! ## Claim C1 -/

/-- **C1** (counterexample): delivering a shell message whose `parent_id`
(`"b"`) is not registered does *not* drop it — the `defaultdict` lookup
creates a registry entry for `"b"` and the message is enqueued there, so
the registry changes, contradicting the claim that no entry is created and
no inbox receives the message. -/
theorem C1_counterexample :
    lookupQueue (shellDeliver [("a", [])] replyToB) "b" = some [replyToB] ∧
    shellDeliver [("a", [])] replyToB ≠ [("a", [])] := by decide

/-- **C1** (amended): delivering a shell message with `parent_id = pid`
never raises and enqueues the message into the queue under `pid` only,
leaving every other entry unchanged; when `pid` is registered the message
is appended to that inbox, and when it is unregistered the `defaultdict`
creates a fresh inbox under `pid` holding exactly the message (rather than
dropping it). -/
theorem C1_shell_delivery (reg : Registry) (msg : Msg) (pid k : String)
    (h : msg.parent_id = some pid) :
    lookupQueue (shellDeliver reg msg) k =
      if k = pid then some ((lookupQueue reg pid).getD [] ++ [msg])
      else lookupQueue reg k := by
  unfold shellDeliver
  rw [h]
  unfold defaultdictGetQueue
  cases hq : lookupQueue reg pid with
  | some q =>
    simp only [hq]
    rw [lookupQueue_updateQueue]
    by_cases hk : k = pid
    · simp [hk, hq]
    · simp [hk]
  | none =>
    simp only [hq]
    rw [lookupQueue_updateQueue]
    by_cases hk : k = pid
    · subst hk
      rw [lookupQueue_append, hq]
      simp [lookupQueue]
    · rw [if_neg hk, if_neg hk, lookupQueue_append]
      have hk' : ¬ (pid = k) := fun heq => hk heq.symm
      simp only [lookupQueue, hk', if_neg hk']
      cases lookupQueue reg k <;> rfl

/-- **C1** witness: the amended delivery equation applied to a concrete
registry, at the registered id `"a"` and the unregistered id `"b"`. -/
theorem C1_shell_delivery_witness :
    lookupQueue (shellDeliver [("a", [])] replyToB) "a" = some [] ∧
    lookupQueue (shellDeliver [("a", [])] replyToB) "b" = some [replyToB] :=
  ⟨(C1_shell_delivery [("a", [])] replyToB "b" "a" rfl).trans (by decide),
   (C1_shell_delivery [("a", [])] replyToB "b" "b" rfl).trans (by decide)⟩

/-! ## Claim C2 -/

theorem iopubStep_statusMsg (st : ExecState) (s : String) :
    iopubStep st (statusMsg s) = (execStateFromName (pyUpper s)).getD st := by
  have hm : msgTypeFromName (pyUpper "status") = some MsgType.STATUS := by
    decide
  simp only [iopubStep, iopubHandle, statusMsg, hm, Option.getD_some]
  cases execStateFromName (pyUpper s) <;> rfl

/-- **C2** (counterexample): after a parseable `idle` status followed by an
unparseable `garbage` status, the execution state is `IDLE` — the
`KeyError` from the unparseable value is caught by the loop's generic
exception arm with the state left unchanged — not the `UNKNOWN` variant the
claim requires. -/
theorem C2_counterexample :
    List.foldl iopubStep ExecState.UNKNOWN
      [statusMsg "idle", statusMsg "garbage"] = ExecState.IDLE ∧
    ExecState.IDLE ≠ ExecState.UNKNOWN := by decide

/-- **C2** (amended): a status message whose `execution_state` parses sets
the shared state to the parsed value (in particular the sequence
`starting, busy, idle` ends in `IDLE` from any initial state); an
unparseable value raises a `KeyError` that the loop's exception arm
swallows, leaving the state *unchanged* (it is not set to `UNKNOWN`), and
no exception propagates out of the loop iteration. -/
theorem C2_status_updates :
    (∀ (st st' : ExecState) (s : String),
        execStateFromName (pyUpper s) = some st' →
        iopubStep st (statusMsg s) = st') ∧
    (∀ (st : ExecState) (s : String),
        execStateFromName (pyUpper s) = none →
        iopubStep st (statusMsg s) = st) ∧
    (∀ st : ExecState,
        List.foldl iopubStep st
          [statusMsg "starting", statusMsg "busy", statusMsg "idle"] =
          ExecState.IDLE) := by
  refine ⟨?_, ?_, ?_⟩
  · intro st st' s hparse
    rw [iopubStep_statusMsg, hparse]
    rfl
  · intro st s hparse
    rw [iopubStep_statusMsg, hparse]
    rfl
  · intro st
    have h1 : execStateFromName (pyUpper "starting") = some ExecState.STARTING := by
      decide
    have h2 : execStateFromName (pyUpper "busy") = some ExecState.BUSY := by
      decide
    have h3 : execStateFromName (pyUpper "idle") = some ExecState.IDLE := by
      decide
    simp only [List.foldl, iopubStep_statusMsg, h1, h2, h3, Option.getD_some]

/-- **C2** witness: the amended behavior at concrete inputs — a parseable
`busy` status sets `BUSY`, an unparseable `garbage` status leaves `IDLE`
unchanged. -/
theorem C2_status_updates_witness :
    iopubStep ExecState.UNKNOWN (statusMsg "busy") = ExecState.BUSY ∧
    iopubStep ExecState.IDLE (statusMsg "garbage") = ExecState.IDLE :=
  ⟨C2_status_updates.1 ExecState.UNKNOWN ExecState.BUSY "busy" (by decide),
   C2_status_updates.2.1 ExecState.IDLE "garbage" (by decide)⟩

/-! ## Claim C3 -/

/-- **C3** (code_bug): evaluating `_handle_error` at a concrete error
notification.  Because the `format` call in the source is a separate,
discarded statement, the text handed to the rendering target is the
*unformatted template* `"\nError[{execution_count}]: {ename}, {evalue}."`:
it does not begin with `"Error[7]: ZeroDivisionError, division by zero."`,
and the traceback lines never appear in it. -/
theorem C3_error_template_bug :
    handle_error 7 "ZeroDivisionError" "division by zero"
        ["\x1b[31mTraceback line\x1b[0m"] true =
      [RenderEvent.appendText errorTemplate,
       RenderEvent.inlineHtml
         (streamPhantomFormat "error"
           (fix_whitespace_for_phantom errorTemplate))] ∧
    errorTemplate ≠
      "\nError[7]: ZeroDivisionError, division by zero.\nTraceback:\n\x1b[31mTraceback line\x1b[0m" := by
  have hclean : remove_ansi_escape errorTemplate = errorTemplate :=
    remove_ansi_escape_of_clean (cleanOfAnsi_of_not_mem_esc (by decide))
  constructor
  · simp only [handle_error, hclean, if_pos rfl, if_true]
  · decide

/-! ## Claim C4 -/

/-- **C4** (code_bug): the stdin receiver compares the message-type
*string* against the enum member `MsgType.INPUT_REQUEST`, which is never
equal in Python, so `_handle_input_request` is unreachable: no message —
in particular not the concrete `input_request` message `inputRequestMsg` —
ever invokes a prompt collaborator, even though `_handle_input_request`
itself would have invoked the plain prompt collaborator for it. -/
theorem C4_input_request_never_prompts :
    (∀ msg : Msg, stdinStep msg = []) ∧
    stdinStep inputRequestMsg = [] ∧
    handle_input_request "Enter: " false = [PromptCall.plain "Enter: "] := by
  refine ⟨?_, by decide, by decide⟩
  intro msg
  simp [stdinStep, pyEq]

/-! ## Claim C5 -/

/-- **C5** (counterexample): a stream notification with *empty* text and an
existing output location still builds an inline fragment — the formatted
`STREAM_PHANTOM` html is the non-empty `"<div class=stdout></div>"`, so the
truthiness guard never suppresses it — contradicting the claim that an
empty text produces no inline fragment. -/
theorem C5_counterexample :
    RenderEvent.inlineHtml "<div class=stdout></div>" ∈
      handle_stream "stdout" "" true ∧
    handle_stream "stdout" "" true =
      [RenderEvent.appendText "\n(stdout):\n",
       RenderEvent.inlineHtml "<div class=stdout></div>"] := by decide

theorem streamPhantomFormat_ne_empty (name content : String) :
    streamPhantomFormat name content ≠ "" := by
  intro h
  have hlen := congrArg String.length h
  simp [streamPhantomFormat, String.length_append] at hlen
  exact absurd hlen.1.1.1.1 (by decide)

/-- **C5** (amended): for every stream notification the text
`"\n(<name>):\n<text>"` is emitted to the main rendering target, and an
inline fragment is built exactly when the output location exists — the
non-emptiness guard on the phantom html never excludes anything, because
the `<div>` wrapper makes the formatted html non-empty even for empty
stream text. -/
theorem C5_stream_events (name text : String) (hasRegion : Bool) :
    handle_stream name text hasRegion =
      RenderEvent.appendText ("\n(" ++ name ++ "):\n" ++ text) ::
        (if hasRegion then
          [RenderEvent.inlineHtml
            (streamPhantomFormat name (fix_whitespace_for_phantom text))]
        else []) := by
  have hne : streamPhantomFormat name (fix_whitespace_for_phantom text) ≠ "" :=
    streamPhantomFormat_ne_empty _ _
  simp [handle_stream, hne]

/-! ## Claim C6 -/

/-- **C6** (confirmed): whenever the shared execution state is not `IDLE`,
`get_complete` returns the empty list immediately, sends no complete
request to the client, and leaves the registry untouched. -/
theorem C6_not_idle_short_circuit (st : ExecState) (reg : Registry)
    (msg_id : String) (outcome : ShellOutcome CompleteReplyContent)
    (h : st ≠ ExecState.IDLE) :
    get_complete st reg msg_id outcome = ([], false, reg) := by
  simp [get_complete, h]

/-- **C6** witness: a `get_complete` call while the kernel is `BUSY`. -/
theorem C6_not_idle_short_circuit_witness :
    get_complete ExecState.BUSY [] "id-0" ShellOutcome.timeout =
      ([], false, []) :=
  C6_not_idle_short_circuit ExecState.BUSY [] "id-0" ShellOutcome.timeout
    (by decide)

/-! ## Claim C7 -/

/-- **C7** (confirmed): for a fresh request id, a timed-out `get_complete`
returns `[]` and a timed-out `get_inspection` performs no panel update and
raises nothing; and for *every* outcome — reply consumed, timeout, or the
`KeyError` the inspection path can raise while handling the response — the
`finally` block has removed the registry entry by the time the call
returns. -/
theorem C7_timeout_and_cleanup (reg : Registry) (msg_id : String)
    (hfresh : lookupQueue reg msg_id = none) :
    (get_complete ExecState.IDLE reg msg_id ShellOutcome.timeout).1 = [] ∧
    (get_inspection reg msg_id InspectOutcome.timeout).1 = Except.ok none ∧
    (∀ outcome,
      lookupQueue (get_complete ExecState.IDLE reg msg_id outcome).2.2
        msg_id = none) ∧
    (∀ outcome,
      lookupQueue (get_inspection reg msg_id outcome).2 msg_id = none) := by
  have hget : defaultdictGetQueue reg msg_id = (reg ++ [(msg_id, [])], []) := by
    simp [defaultdictGetQueue, hfresh]
  have hpop : popQueue (reg ++ [(msg_id, [])]) msg_id = reg :=
    popQueue_append_fresh reg msg_id [] hfresh
  refine ⟨?_, ?_, ?_, ?_⟩
  · simp [get_complete, hget]
  · simp [get_inspection, hget]
  · intro outcome
    simp [get_complete, hget, hpop, hfresh]
  · intro outcome
    simp [get_inspection, hget, hpop, hfresh]

/-- **C7** witness: cleanup at a concrete empty registry, for the timeout
outcome of `get_complete` and the raising outcome of `get_inspection`. -/
theorem C7_timeout_and_cleanup_witness :
    (get_complete ExecState.IDLE [] "id-1" ShellOutcome.timeout).1 = [] ∧
    lookupQueue (get_inspection [] "id-1" (InspectOutcome.reply none)).2
      "id-1" = none :=
  ⟨(C7_timeout_and_cleanup [] "id-1" rfl).1,
   (C7_timeout_and_cleanup [] "id-1" rfl).2.2.2 (InspectOutcome.reply none)⟩

/-! ## Claim C8 -/

/-- **C8** (confirmed): a display-data / execute-result mime bundle
carrying both `text/plain` and `image/png` produces exactly the four calls
of the text/plain branch and the image branch — one main-text rendering
call with the `text/plain` payload, one inline image rendering call with
the stripped base64 `image/png` payload — and the only block-level html
call is the image body, i.e. the `text/html` fallback branch never fires. -/
theorem C8_mime_text_and_image (mime : MimeData) (t d : String)
    (ht : mime.text_plain = some t) (hi : mime.image_png = some d) :
    write_mime_data_to_view mime =
      [RenderEvent.appendText ("\n(display data): " ++ t),
       RenderEvent.inlineHtml (fix_whitespace_for_phantom t),
       RenderEvent.blockHtml (pngPhantomBody (pyStrip d)),
       RenderEvent.inlineImage (pyStrip d)] ∧
    (write_mime_data_to_view mime).countP isMainTextCall = 1 ∧
    (write_mime_data_to_view mime).countP isImageCall = 1 ∧
    (∀ e ∈ write_mime_data_to_view mime, isBlockHtmlCall e →
      e = RenderEvent.blockHtml (pngPhantomBody (pyStrip d))) := by
  have hev : write_mime_data_to_view mime =
      [RenderEvent.appendText ("\n(display data): " ++ t),
       RenderEvent.inlineHtml (fix_whitespace_for_phantom t),
       RenderEvent.blockHtml (pngPhantomBody (pyStrip d)),
       RenderEvent.inlineImage (pyStrip d)] := by
    simp [write_mime_data_to_view, ht, hi]
  refine ⟨hev, ?_, ?_, ?_⟩
  · rw [hev]
    simp [List.countP_cons, isMainTextCall]
  · rw [hev]
    simp [List.countP_cons, isImageCall]
  · rw [hev]
    intro e he hb
    simp only [List.mem_cons, List.mem_singleton] at he
    rcases he with h | h | h | h | h
    · rw [h] at hb; cases hb
    · rw [h] at hb; cases hb
    · exact h
    · rw [h] at hb; cases hb
    · cases h

/-- **C8** witness: the four rendering calls at the concrete bundle
`mimeBoth`, fully evaluated. -/
theorem C8_mime_text_and_image_witness :
    write_mime_data_to_view mimeBoth =
      [RenderEvent.appendText "\n(display data): x y",
       RenderEvent.inlineHtml "x&nbsp;y",
       RenderEvent.blockHtml (pngPhantomBody "QUJD"),
       RenderEvent.inlineImage "QUJD"] :=
  ((C8_mime_text_and_image mimeBoth "x y" " QUJD " rfl rfl).1).trans (by decide)

/-! ## Claim C9 -/

/-- **C9** (confirmed): each of the three receiver loops terminates exactly
when its stop signal is observed at a poll boundary — over any trace of
polls (messages, empty polls, channel errors), the loop has exited iff some
iteration's stop flag was set, so no bad message or channel error alone
makes a loop exit. -/
theorem C9_loops_stop_only_on_signal (reg : Registry) (st : ExecState)
    (calls : List PromptCall) (tr : List (Bool × PollResult)) :
    (runShell reg tr).2 = tr.any (fun p => p.1) ∧
    (runIOPub st tr).2 = tr.any (fun p => p.1) ∧
    (runStdIn calls tr).2 = tr.any (fun p => p.1) :=
  ⟨runLoop_exit _ reg tr, runLoop_exit _ st tr, runLoop_exit _ calls tr⟩

/-! ## Claim C10 -/

/-- **C10** (confirmed): `remove_ansi_escape` is idempotent — its output
contains no further match of `ANSI_ESCAPE_PATTERN`, so a second application
changes nothing. -/
theorem C10_remove_ansi_escape_idempotent (s : String) :
    remove_ansi_escape (remove_ansi_escape s) = remove_ansi_escape s :=
  remove_ansi_escape_of_clean (cleanOfAnsi_removeAnsiEscape s.data)

end Helium
